import Mathlib

/-!
Verification of the LocalReply AI engine chat/booking flow (`src/server.js`).

The definitions below are a shallow embedding of the `/chat` request handler
and the pure helper functions it uses: `safeLower`, `isConfirmation`,
`parseDateFromText`, `parseTimeFromText`, the service matcher, the effective
knowledge-base resolution, and the in-memory session store.  JavaScript
strings are modelled as Lean `String`, JS `null`/absent values as `Option`,
and JS string truthiness (`""` and `null` are falsy) explicitly.  The two
external collaborators are modelled as request inputs: the `intent` field returned by the classifier (the adapter returns `"other"` on any failure, so an
arbitrary string parameter covers all outcomes) and the success of the
Resend email dispatch (a `Bool`; a failed dispatch throws, which the outer
`catch` turns into a 500 response).
-/

/-! ### JavaScript character and string primitives -/

/-- Decimal digit, as in the regex class `\d`. -/
def isDigitC (c : Char) : Bool :=
  48 ≤ c.toNat && c.toNat ≤ 57

/-- Word character, as in the regex class `\w` used by the boundary `\b`:
`[A-Za-z0-9_]`. -/
def isWordC (c : Char) : Bool :=
  isDigitC c || (65 ≤ c.toNat && c.toNat ≤ 90) || (97 ≤ c.toNat && c.toNat ≤ 122) ||
    c.toNat = 95

/-- Whitespace as matched by the JS regex class `\s` and by `String.prototype.trim`
(tab, line feed, vertical tab, form feed, carriage return, space, NBSP, BOM and
the Unicode line/paragraph separators; the rarer Unicode space separators are
not exercised by any input considered here). -/
def isJsSpace (c : Char) : Bool :=
  c.toNat = 32 || c.toNat = 9 || c.toNat = 10 || c.toNat = 11 || c.toNat = 12 ||
    c.toNat = 13 || c.toNat = 160 || c.toNat = 0xfeff || c.toNat = 0x2028 ||
    c.toNat = 0x2029

/-- `String.prototype.toLowerCase`, restricted to the Unicode simple lowercase
mappings of the Basic Latin and Latin-1 blocks (uppercase ASCII and the accented
capitals `À`–`Þ` except `×` map down by 32); every character used by the token tables and
test inputs of the repository lies in these blocks, and `toLowerCase` is the
identity on the rest of them. -/
def jsLowerChar (c : Char) : Char :=
  let n := c.toNat
  if 65 ≤ n && n ≤ 90 then Char.ofNat (n + 32)
  else if 192 ≤ n && n ≤ 222 && !(n = 215) then Char.ofNat (n + 32)
  else c

/-- `safeLower` from server.js: `String(s || "").toLowerCase()` (all call sites
pass strings, so only the lowercasing is observable). -/
def safeLower (s : String) : String :=
  String.mk (s.data.map jsLowerChar)

/-- `String.prototype.trim`. -/
def jsTrim (s : String) : String :=
  String.mk (((s.data.dropWhile isJsSpace).reverse.dropWhile isJsSpace).reverse)

/-- Substring occurrence on character lists (`String.prototype.includes`). -/
def containsSubL (hay needle : List Char) : Bool :=
  if needle.isPrefixOf hay then true
  else
    match hay with
    | [] => false
    | _ :: t => containsSubL t needle

/-- `hay.includes(needle)` for JS strings. -/
def containsSub (hay needle : String) : Bool :=
  containsSubL hay.data needle.data

/-- `parseInt(s, 10)` on a nonempty all-digit match. -/
def digitsToNat (l : List Char) : Nat :=
  l.foldl (fun a c => a * 10 + (c.toNat - 48)) 0

/-- `String(n).padStart(2, "0")` for the numbers (≤ 99) the date code renders. -/
def pad2 (n : Nat) : String :=
  if n < 10 then "0" ++ toString n else toString n

/-! ### Confirmation detector (`isConfirmation`, server.js:157-173) -/

/-- The ASCII apostrophe character. -/
def apoC : Char := Char.ofNat 39

/-- The affirmative token written with an apostrophe between c and est. -/
def cestBon : String := "c" ++ String.mk [apoC] ++ "est bon"

/-- The affirmative token written with an apostrophe between d and accord. -/
def daccord : String := "d" ++ String.mk [apoC] ++ "accord"

/-- The fixed affirmative token list `yesWords` of server.js, in source order. -/
def yesWords : List String :=
  ["oui", "ok", "okay", "confirmer", "confirmé", "confirme", cestBon,
    "cest bon", daccord, "valider", "go"]

/-- `isConfirmation(text)`: lowercase, trim, then accept iff some token equals
the normalized text or occurs in it as a substring. -/
def isConfirmation (text : String) : Bool :=
  let t := jsTrim (safeLower text)
  yesWords.any (fun w => t == w || containsSub t w)

/-! ### Scanners for the regex searches

JS `String.prototype.match` with an unanchored pattern returns the leftmost
match; these scanners walk the character list left to right, tracking the
previous character where the pattern starts with a word boundary `\b`. -/

/-- Does a word boundary hold before the current position, given the previous
character (`none` at the start of the string)? -/
def bOkOf : Option Char → Bool
  | none => true
  | some p => !isWordC p

/-- Leftmost match of a position-local pattern `f` that starts with `\b`. -/
def scanB {α : Type} (f : List Char → Option α) : Option Char → List Char → Option α
  | prev, [] => if bOkOf prev then f [] else none
  | prev, c :: t =>
    match (if bOkOf prev then f (c :: t) else none) with
    | some r => some r
    | none => scanB f (some c) t

/-- Leftmost match of a position-local pattern with no leading boundary. -/
def scanAll {α : Type} (f : List Char → Option α) : List Char → Option α
  | [] => f []
  | c :: t =>
    match f (c :: t) with
    | some r => some r
    | none => scanAll f t

/-! ### Date extractor (`parseDateFromText`, server.js:175-216) -/

/-- Try `\b(\d{4})-(\d{2})-(\d{2})\b` at the current position (the leading
boundary is checked by the scanner); returns the ten matched characters,
exactly what `` `${iso[1]}-${iso[2]}-${iso[3]}` `` reassembles. -/
def isoAt (l : List Char) : Option (List Char) :=
  match l with
  | a :: b :: c :: d :: h1 :: e :: f :: h2 :: g :: k :: rest =>
    if isDigitC a && isDigitC b && isDigitC c && isDigitC d && h1 == '-' &&
        isDigitC e && isDigitC f && h2 == '-' && isDigitC g && isDigitC k &&
        (match rest with
          | [] => true
          | r :: _ => !isWordC r) then
      some [a, b, c, d, '-', e, f, '-', g, k]
    else none
  | _ => none

/-- Leftmost `\b\d{4}-\d{2}-\d{2}\b` match in a string. -/
def findIsoL (l : List Char) : Option (List Char) :=
  scanB isoAt none l

/-- The month-name alternation of the regex on server.js:202, in source order. -/
def monthNames : List String :=
  ["janvier", "février", "fevrier", "mars", "avril", "mai", "juin", "juillet",
    "août", "aout", "septembre", "octobre", "novembre", "décembre", "decembre"]

/-- The `months` object of server.js:182-198. -/
def monthsTable (s : String) : Option Nat :=
  if s == "janvier" then some 1
  else if s == "février" then some 2
  else if s == "fevrier" then some 2
  else if s == "mars" then some 3
  else if s == "avril" then some 4
  else if s == "mai" then some 5
  else if s == "juin" then some 6
  else if s == "juillet" then some 7
  else if s == "août" then some 8
  else if s == "aout" then some 8
  else if s == "septembre" then some 9
  else if s == "octobre" then some 10
  else if s == "novembre" then some 11
  else if s == "décembre" then some 12
  else if s == "decembre" then some 12
  else none

/-- First month-name alternative matching at this position (regex alternation
tries the alternatives in listed order). -/
def monthAt (l : List Char) : Option String :=
  monthNames.find? (fun nm => nm.data.isPrefixOf l)

/-- `\s+` then a month name: the whitespace run is consumed greedily; since
month names start with letters, backtracking to a shorter run can never
succeed, so maximal munch is exact. -/
def afterDaySpace (l : List Char) : Option String :=
  match l with
  | [] => none
  | c :: t =>
    if isJsSpace c then monthAt (t.dropWhile isJsSpace) else none

/-- Try `(\d{1,2})\s+(month)` at the current position: the day digits are
greedy (two before one).  Returns the day digits and the matched month name. -/
def dmAt (l : List Char) : Option (String × String) :=
  match l with
  | [] => none
  | a :: t =>
    if isDigitC a then
      match t with
      | [] => none
      | b :: t2 =>
        if isDigitC b then
          match afterDaySpace t2 with
          | some mn => some (String.mk [a, b], mn)
          | none =>
            -- backtrack to a one-digit day: the next char is then `b`, a digit,
            -- which can never satisfy `\s+`, mirroring the regex exactly
            match afterDaySpace (b :: t2) with
            | some mn => some (String.mk [a], mn)
            | none => none
        else
          match afterDaySpace (b :: t2) with
          | some mn => some (String.mk [a], mn)
          | none => none
    else none

/-- Leftmost `(\d{1,2})\s+(month)` match (no boundary in this regex). -/
def findDM (l : List Char) : Option (String × String) :=
  scanAll dmAt l

/-- Days from the civil epoch 1970-01-01 of the local-midnight instant
`new Date(y, m-1, d)`.  The formula is linear in `d`, which models the JS
the normalization the `Date` constructor applies of out-of-range day numbers exactly. -/
def daysFromCivil (y : Int) (m : Nat) (d : Nat) : Int :=
  let y' : Int := if m ≤ 2 then y - 1 else y
  let era : Int := (if 0 ≤ y' then y' else y' - 399) / 400
  let yoe : Int := y' - era * 400
  let mp : Int := (Int.ofNat m + 9) % 12
  let doy : Int := (153 * mp + 2) / 5 + Int.ofNat d - 1
  let doe : Int := yoe * 365 + yoe / 4 - yoe / 100 + doy
  era * 146097 + doe - 719468

/-- The current instant `new Date()`, in local civil terms: calendar date plus
milliseconds elapsed since local midnight. -/
structure NowT where
  year : Int
  month : Nat
  day : Nat
  msOfDay : Nat
deriving Repr, DecidableEq

/-- The comparison `candidate < now` of server.js:213, where `candidate` is
local midnight of day `d` of month `m` in the year of `now`: true iff that day is
strictly before today, or is today and any time has elapsed since midnight. -/
def candBeforeNow (now : NowT) (m : Nat) (d : Nat) : Bool :=
  let cand := daysFromCivil now.year m d
  let ns := daysFromCivil now.year now.month now.day
  cand < ns || (cand == ns && 0 < now.msOfDay)

/-- `` `${year}-${pad2(month)}-${pad2(day)}` ``. -/
def renderYMD (y : Int) (m d : Nat) : String :=
  toString y ++ "-" ++ pad2 m ++ "-" ++ pad2 d

/-- `parseDateFromText(text)` of server.js:175-216, with the current instant
made explicit.  Branch (a): leftmost `\b\d{4}-\d{2}-\d{2}\b` match returned
verbatim.  Branch (b): leftmost `(\d{1,2})\s+(month)` match on the lowercased
text, rendered in the current year, bumped one year when the candidate
midnight is before the current instant. -/
def parseDateFromText (now : NowT) (text : String) : Option String :=
  if text == "" then none
  else
    match findIsoL text.data with
    | some m => some (String.mk m)
    | none =>
      match findDM (safeLower text).data with
      | none => none
      | some (dayStr, mname) =>
        match monthsTable mname with
        | none => none
        | some month =>
          let day := digitsToNat dayStr.data
          let year := if candBeforeNow now month day then now.year + 1 else now.year
          some (renderYMD year month day)

/-- Modelled from the spec: identical to `parseDateFromText` except that the
year rolls forward exactly when the month/day combination interpreted in the
current year "has already passed", i.e. is a day strictly before today —
the current day itself does not count as passed.  Used to compare this
roll-forward rule with the comparison `candidate < now` of the code. -/
def parseDateFromTextSpec (now : NowT) (text : String) : Option String :=
  if text == "" then none
  else
    match findIsoL text.data with
    | some m => some (String.mk m)
    | none =>
      match findDM (safeLower text).data with
      | none => none
      | some (dayStr, mname) =>
        match monthsTable mname with
        | none => none
        | some month =>
          let day := digitsToNat dayStr.data
          let passed := daysFromCivil now.year month day <
            daysFromCivil now.year now.month now.day
          let year := if passed then now.year + 1 else now.year
          some (renderYMD year month day)

/-! ### Time extractor (`parseTimeFromText`, server.js:218-230) -/

/-- Word boundary after the end of a match. -/
def boundaryAfter : List Char → Bool
  | [] => true
  | c :: _ => !isWordC c

/-- The `(\d{2})?\b` tail of the first time regex after the `h`: inner `some`
carries the minute digits when the optional group matched.  When two minute
digits match but the trailing boundary fails, the regex backtracks to the
empty optional group, whose own boundary (between `h` and a digit) fails
too. -/
def minsB (l : List Char) : Option (Option (List Char)) :=
  match l with
  | m1 :: m2 :: rest =>
    if isDigitC m1 && isDigitC m2 then
      if boundaryAfter rest then some (some [m1, m2])
      else if isWordC m1 then none else some none
    else if isWordC m1 then none else some none
  | [c] => if isWordC c then none else some none
  | [] => some none

/-- `\d{2}[hH]` then minutes, at this position. -/
def twoH (l : List Char) : Option (List Char × Option (List Char)) :=
  match l with
  | a :: b :: c :: rest =>
    if isDigitC a && isDigitC b && (c == 'h' || c == 'H') then
      (minsB rest).map (fun mm => ([a, b], mm))
    else none
  | _ => none

/-- `\d[hH]` then minutes, at this position. -/
def oneH (l : List Char) : Option (List Char × Option (List Char)) :=
  match l with
  | a :: b :: rest =>
    if isDigitC a && (b == 'h' || b == 'H') then
      (minsB rest).map (fun mm => ([a], mm))
    else none
  | _ => none

/-- `\b(\d{1,2})h(\d{2})?\b` (case-insensitive `h`) at this position: the hour
is greedy, so the two-digit attempt precedes the one-digit one. -/
def timeHAt (l : List Char) : Option (List Char × Option (List Char)) :=
  match twoH l with
  | some r => some r
  | none => oneH l

/-- `\d{2}:(\d{2})\b` at this position. -/
def twoC (l : List Char) : Option (List Char × List Char) :=
  match l with
  | a :: b :: c :: m1 :: m2 :: rest =>
    if isDigitC a && isDigitC b && c == ':' && isDigitC m1 && isDigitC m2 &&
        boundaryAfter rest then
      some ([a, b], [m1, m2])
    else none
  | _ => none

/-- `\d:(\d{2})\b` at this position. -/
def oneC (l : List Char) : Option (List Char × List Char) :=
  match l with
  | a :: b :: m1 :: m2 :: rest =>
    if isDigitC a && b == ':' && isDigitC m1 && isDigitC m2 &&
        boundaryAfter rest then
      some ([a], [m1, m2])
    else none
  | _ => none

/-- `\b(\d{1,2}):(\d{2})\b` at this position. -/
def timeCAt (l : List Char) : Option (List Char × List Char) :=
  match twoC l with
  | some r => some r
  | none => oneC l

/-- Hour digits rendered as `String(h[1]).padStart(2, "0")`. -/
def padH (hd : List Char) : String :=
  if hd.length = 1 then "0" ++ String.mk hd else String.mk hd

/-- `parseTimeFromText(text)` of server.js:218-230: first `\b(\d{1,2})h(\d{2})?\b`
(minutes default `"00"`), then `\b(\d{1,2}):(\d{2})\b`. -/
def parseTimeFromText (text : String) : Option String :=
  if text == "" then none
  else
    match scanB timeHAt none text.data with
    | some (hd, mm) => some (padH hd ++ ":" ++ String.mk (mm.getD ['0', '0']))
    | none =>
      match scanB timeCAt none text.data with
      | some (hd, mm) => some (padH hd ++ ":" ++ String.mk mm)
      | none => none

/-! ### Knowledge base resolution (server.js:355-386) -/

/-- A catalog service; only its `name` is read by the chat flow. -/
structure Service where
  name : String
deriving Repr, DecidableEq

/-- The `business` object inside a caller-supplied or projected knowledge
base; each field may be absent (optional chaining reads them). -/
structure KBBusiness where
  name : Option String
  business_type : Option String
  timezone : Option String
  contact_email : Option String
deriving Repr, DecidableEq

/-- A knowledge-base payload (`kb` request field or the DB projection). -/
structure KB where
  business : Option KBBusiness
  services : Option (List Service)
deriving Repr, DecidableEq

/-- The row the handler selects from the `businesses` table.  String columns
default to the empty string in the schema, so emptiness (JS falsiness) is modelled by
`""`; `services` is `none` when the stored JSONB is not an array
(`Array.isArray` guard). -/
structure DbBusiness where
  name : String
  business_type : String
  contact_email : String
  timezone : String
  services : Option (List Service)
deriving Repr, DecidableEq

/-- Step (3) of the resolution order in the spec.  This revision of server.js
defines no built-in default business records — the only fallbacks are the
literal `"ce business"` name and the empty catalog — so no identifier matches
a default record. -/
def builtinDefaultKB (_slug : String) : Option KB := none

/-- The DB-to-KB projection of server.js:368-377: name verbatim,
`business_type`/`timezone` with their `||` fallbacks, services when the
column is an array, and no `contact_email` key. -/
def projectDbKB (b : DbBusiness) : KB :=
  { business := some
      { name := some b.name,
        business_type := some (if b.business_type == "" then "local_business" else b.business_type),
        timezone := some (if b.timezone == "" then "Europe/Zurich" else b.timezone),
        contact_email := none },
    services := some (b.services.getD []) }

/-- `effectiveKB = kb || (dbBusiness ? projection : null)` (server.js:366-378). -/
def effectiveKBOf (kbArg : Option KB) (dbBiz : Option DbBusiness) : Option KB :=
  match kbArg with
  | some k => some k
  | none =>
    match dbBiz with
    | some b => some (projectDbKB b)
    | none => none

/-- JS `a || d` for an optional string `a` (empty string is falsy). -/
def strOr (o : Option String) (d : String) : String :=
  match o with
  | some s => if s == "" then d else s
  | none => d

/-- `effectiveKB?.business?.name || "ce business"` (server.js:380). -/
def businessNameOf (ekb : Option KB) : String :=
  strOr ((ekb.bind (·.business)).bind (·.name)) "ce business"

/-- `effectiveKB?.services || []` (server.js:381; a present list is always
truthy in JS, even when empty). -/
def servicesOf (ekb : Option KB) : List Service :=
  (ekb.bind (·.services)).getD []

/-- Drop a JS-falsy (empty) string. -/
def optTruthy (o : Option String) : Option String :=
  o.bind (fun s => if s == "" then none else some s)

/-- `effectiveKB?.business?.contact_email || (dbBusiness && dbBusiness.contact_email
? dbBusiness.contact_email : null)` (server.js:384-386). -/
def businessEmailOf (ekb : Option KB) (dbBiz : Option DbBusiness) : Option String :=
  match optTruthy ((ekb.bind (·.business)).bind (·.contact_email)) with
  | some e => some e
  | none =>
    match dbBiz with
    | some b => if b.contact_email == "" then none else some b.contact_email
    | none => none

/-- `services.find(s => safeLower(message).includes(safeLower(s.name)))`
(server.js:404): first catalog entry, in catalog order, whose lowercased name
occurs in the lowercased message. -/
def findService (services : List Service) (message : String) : Option Service :=
  services.find? (fun s => containsSub (safeLower message) (safeLower s.name))

/-! ### Session state and the chat step (server.js:338-479) -/

/-- One `SESSIONS[sid]` record.  Slots hold JS `null` (`none`) or a string;
the guards of the handler test JS truthiness, under which `some ""` is as unset
as `none`. -/
structure SessState where
  service : Option String
  date : Option String
  time : Option String
  in_booking : Bool
deriving Repr, DecidableEq

/-- The fresh record created on first contact (server.js:347-352). -/
def initialState : SessState :=
  { service := none, date := none, time := none, in_booking := false }

/-- JS truthiness of a nullable string slot. -/
def truthyS (o : Option String) : Bool :=
  match o with
  | none => false
  | some s => !(s == "")

/-- `if (!state.service) { const svc = services.find(...); if (svc) state.service
= svc.name; }` (server.js:403-405). -/
def fillService (services : List Service) (message : String) (st : SessState) : SessState :=
  if truthyS st.service then st
  else
    match findService services message with
    | some svc => { st with service := some svc.name }
    | none => st

/-- `if (!state.date) { const d = parseDateFromText(message); if (d) state.date
= d; }` (server.js:407-410). -/
def fillDate (now : NowT) (message : String) (st : SessState) : SessState :=
  if truthyS st.date then st
  else
    match parseDateFromText now message with
    | some d => { st with date := some d }
    | none => st

/-- `if (!state.time) { const t = parseTimeFromText(message); if (t) state.time
= t; }` (server.js:411-414). -/
def fillTime (message : String) (st : SessState) : SessState :=
  if truthyS st.time then st
  else
    match parseTimeFromText message with
    | some t => { st with time := some t }
    | none => st

/-- The booking summary handed to `sendBookingEmail` (server.js:431-439). -/
structure Booking where
  service : String
  date : String
  time : String
deriving Repr, DecidableEq

/-- The full dispatch request: destination, business name, slots. -/
structure EmailReq where
  toAddr : String
  businessName : String
  booking : Booking
deriving Repr, DecidableEq

/-- The per-request inputs of the chat step beyond the message itself: the
caller-supplied `kb`, the DB row for the slug, the classifier outcome
`intent` field (the adapter yields `"other"` on any failure, so ranging over
all strings covers every outcome), whether the Resend dispatch succeeds, and
the current instant. -/
structure ChatEnv where
  kbArg : Option KB
  dbBiz : Option DbBusiness
  intent : String
  emailOk : Bool
  now : NowT
deriving Repr, DecidableEq

/-- The observable outcome of one `/chat` step on one session: HTTP status
(200 or 500), the reply text on success, the session record left in the store
(`none` means `delete SESSIONS[sid]`), whether `analyzeIntent` was awaited,
and the dispatch request if `sendBookingEmail` was invoked. -/
structure StepOut where
  status : Nat
  replyText : Option String
  sessionAfter : Option SessState
  consultedClassifier : Bool
  emailAttempt : Option EmailReq
deriving Repr, DecidableEq

/-- server.js:398. -/
def greetingMsg (businessName : String) : String :=
  "Bienvenue chez " ++ businessName ++ ". Comment puis-je vous aider ?"

/-- server.js:425-426 (the two concatenated halves). -/
def degradedMsg : String :=
  "Merci 🙏 Votre demande est prête, mais le business n’a pas encore configuré son email de réception. Merci de le contacter directement pour finaliser."

/-- server.js:445. -/
def thanksMsg : String :=
  "Merci 🙏 Votre demande a bien été transmise. L’équipe vous recontactera rapidement."

/-- server.js:451. -/
def recapMsg (svc d t : String) : String :=
  "Parfait 👍 Je récapitule : " ++ svc ++ " le " ++ d ++ " à " ++ t ++ ". Souhaitez-vous confirmer ?"

/-- server.js:457-460: the catalog list is appended when `services` is
nonempty and the joined list is itself truthy. -/
def askServiceMsg (services : List Service) : String :=
  if services.isEmpty then "Quel service souhaitez-vous réserver ?"
  else
    let list := String.intercalate " | " (services.map (·.name))
    if list == "" then "Quel service souhaitez-vous réserver ?"
    else "Quel service souhaitez-vous réserver ? (" ++ list ++ ")"

/-- server.js:467. -/
def askDateMsg : String :=
  "Pour quelle date souhaitez-vous le rendez-vous ? (ex: 13 février)"

/-- server.js:473. -/
def askTimeMsg : String :=
  "À quelle heure souhaitez-vous le rendez-vous ? (ex: 14h ou 14:30)"

/-- The booking-flag update of server.js:390-392:
`if (intentRes.intent === "booking" || state.in_booking) state.in_booking = true`. -/
def bookFlagStep (intent : String) (st : SessState) : SessState :=
  if intent == "booking" || st.in_booking then { st with in_booking := true } else st

/-- The three guarded fills of server.js:402-414, in source order (service,
then date, then time). -/
def mergeFills (services : List Service) (now : NowT) (message : String) (st : SessState) : SessState :=
  fillTime message (fillDate now message (fillService services message st))

/-- The effect of one `/chat` request on one session record (server.js:345-478,
after request validation).  `analyzeIntent` is awaited unconditionally on
server.js:389 — before the `in_booking` branch — so every step records
`consultedClassifier := true`; its result only feeds the
`intent === "booking" || state.in_booking` update.  A failed dispatch throws
out of the handler into the catch-all, which answers 500; the in-place
mutations already applied to the record persist. -/
def chatStep (entry : Option SessState) (message : String) (env : ChatEnv) : StepOut :=
  let st0 := entry.getD initialState
  let ekb := effectiveKBOf env.kbArg env.dbBiz
  let businessName := businessNameOf ekb
  let services := servicesOf ekb
  let businessEmail := businessEmailOf ekb env.dbBiz
  let st1 := bookFlagStep env.intent st0
  if !st1.in_booking then
    { status := 200, replyText := some (greetingMsg businessName),
      sessionAfter := some st1, consultedClassifier := true, emailAttempt := none }
  else
    let st2 := mergeFills services env.now message st1
    if truthyS st2.service && truthyS st2.date && truthyS st2.time then
      if isConfirmation message then
        match businessEmail with
        | none =>
          { status := 200, replyText := some degradedMsg, sessionAfter := none,
            consultedClassifier := true, emailAttempt := none }
        | some dest =>
          let req : EmailReq :=
            { toAddr := dest, businessName := businessName,
              booking := { service := st2.service.getD "", date := st2.date.getD "",
                           time := st2.time.getD "" } }
          if env.emailOk then
            { status := 200, replyText := some thanksMsg, sessionAfter := none,
              consultedClassifier := true, emailAttempt := some req }
          else
            { status := 500, replyText := none, sessionAfter := some st2,
              consultedClassifier := true, emailAttempt := some req }
      else
        { status := 200,
          replyText := some (recapMsg (st2.service.getD "") (st2.date.getD "") (st2.time.getD "")),
          sessionAfter := some st2, consultedClassifier := true, emailAttempt := none }
    else if !truthyS st2.service then
      { status := 200, replyText := some (askServiceMsg services),
        sessionAfter := some st2, consultedClassifier := true, emailAttempt := none }
    else if !truthyS st2.date then
      { status := 200, replyText := some askDateMsg, sessionAfter := some st2,
        consultedClassifier := true, emailAttempt := none }
    else
      { status := 200, replyText := some askTimeMsg, sessionAfter := some st2,
        consultedClassifier := true, emailAttempt := none }

/-! ### The session store and the full handler -/

/-- The in-memory `SESSIONS` object: a map from session key to record. -/
def Store : Type := String → Option SessState

/-- The empty store. -/
def emptyStore : Store := fun _ => none

/-- `SESSIONS[k] = v`. -/
def storeSet (s : Store) (k : String) (v : SessState) : Store :=
  fun k' => if k' == k then some v else s k'

/-- `delete SESSIONS[k]`. -/
def storeDel (s : Store) (k : String) : Store :=
  fun k' => if k' == k then none else s k'

/-- The `/chat` request body; each field may be absent. -/
structure ChatReq where
  business_slug : Option String
  session_id : Option String
  message : Option String
  kb : Option KB
deriving Repr

/-- JS falsiness of an optional string request field. -/
def jsStrFalsy (o : Option String) : Bool :=
  match o with
  | none => true
  | some s => s == ""

/-- `const sid = session_id || "anon"` (server.js:346): a falsy `session_id`
maps to the fixed key `"anon"`. -/
def sidOf (session_id : Option String) : String :=
  match session_id with
  | some s => if s == "" then "anon" else s
  | none => "anon"

/-- The observable outcome of a full `/chat` request: status, reply text and
echoed `session_id` (both only on 200), the store afterwards, and the two
external-call effects. -/
structure HandlerOut where
  status : Nat
  replyText : Option String
  sessionId : Option String
  store : Store
  consultedClassifier : Bool
  emailAttempt : Option EmailReq

/-- The whole `POST /chat` handler (server.js:338-479): validate the required
fields, resolve the session key, run the step on the record of that session, and
write back (or delete) the record under the same key. -/
def chatHandler (store : Store) (req : ChatReq) (dbBiz : Option DbBusiness)
    (intent : String) (emailOk : Bool) (now : NowT) : HandlerOut :=
  if jsStrFalsy req.business_slug || jsStrFalsy req.message then
    { status := 400, replyText := none, sessionId := none, store := store,
      consultedClassifier := false, emailAttempt := none }
  else
    let sid := sidOf req.session_id
    let message := req.message.getD ""
    let out := chatStep (store sid) message
      { kbArg := req.kb, dbBiz := dbBiz, intent := intent, emailOk := emailOk, now := now }
    let store2 := match out.sessionAfter with
      | some st => storeSet store sid st
      | none => storeDel store sid
    { status := out.status, replyText := out.replyText,
      sessionId := if out.status == 200 then some sid else none,
      store := store2, consultedClassifier := out.consultedClassifier,
      emailAttempt := out.emailAttempt }

/-! ### Concrete instances used by witnesses and counterexamples -/

/-- A current instant early in 2025. -/
def nowJan : NowT := ⟨2025, 1, 1, 0⟩

/-- Exactly local midnight of 2025-06-15. -/
def nowMid : NowT := ⟨2025, 6, 15, 0⟩

/-- 10:00 local time on 2025-06-15. -/
def nowJun : NowT := ⟨2025, 6, 15, 36000000⟩

/-- A one-service catalog entry. -/
def svcW : Service := ⟨"coupe"⟩

/-- A caller-supplied knowledge base with a contact address. -/
def kbSalon : KB :=
  { business := some
      { name := some "Salon", business_type := none, timezone := none,
        contact_email := some "salon@example.com" },
    services := some [svcW] }

/-- A stored business row. -/
def dbW : DbBusiness :=
  ⟨"Atelier", "", "owner@example.com", "", some [svcW]⟩

/-- A session with every slot filled, in booking mode. -/
def stFull : SessState := ⟨some "coupe", some "2025-03-01", some "14:00", true⟩

/-- A session with service and date filled, in booking mode. -/
def stPart : SessState := ⟨some "coupe", some "2025-03-01", none, true⟩

/-- A request environment with no knowledge base and a non-booking intent. -/
def envPlain : ChatEnv := ⟨none, none, "other", true, nowJan⟩

/-- A request environment with the salon knowledge base and booking intent. -/
def envBooking : ChatEnv := ⟨some kbSalon, none, "booking", true, nowJan⟩

/-- Same environment, but the dispatch fails and the intent is non-booking. -/
def envFail : ChatEnv := ⟨some kbSalon, none, "other", false, nowJan⟩

/-- A booking-opening request that omits `session_id`. -/
def reqBook : ChatReq := ⟨some "b", none, some "je veux reserver", none⟩

/-- A small-talk request that omits `session_id`. -/
def reqHello : ChatReq := ⟨some "b", none, some "bonjour", none⟩

/-- A store holding one in-booking session under the key `"s1"`. -/
def storeBooked : Store := storeSet emptyStore "s1" stFull

/-! ### Helper lemmas on the slot fills -/

/-- The state the step leaves in the store whenever it does not delete the
session: the in-place mutations of server.js:390-414 (booking flag update,
then the three guarded fills). -/
def postState (entry : Option SessState) (message : String) (env : ChatEnv) : SessState :=
  let st1 := bookFlagStep env.intent (entry.getD initialState)
  if !st1.in_booking then st1
  else mergeFills (servicesOf (effectiveKBOf env.kbArg env.dbBiz)) env.now message st1

theorem fillService_of_truthy (sv : List Service) (m : String) (st : SessState)
    (h : truthyS st.service = true) : fillService sv m st = st := by
  simp [fillService, h]

theorem fillDate_of_truthy (n : NowT) (m : String) (st : SessState)
    (h : truthyS st.date = true) : fillDate n m st = st := by
  simp [fillDate, h]

theorem fillTime_of_truthy (m : String) (st : SessState)
    (h : truthyS st.time = true) : fillTime m st = st := by
  simp [fillTime, h]

theorem fillService_date (sv : List Service) (m : String) (st : SessState) :
    (fillService sv m st).date = st.date := by
  unfold fillService
  split
  · rfl
  · cases findService sv m <;> rfl

theorem fillService_time (sv : List Service) (m : String) (st : SessState) :
    (fillService sv m st).time = st.time := by
  unfold fillService
  split
  · rfl
  · cases findService sv m <;> rfl

theorem fillService_in_booking (sv : List Service) (m : String) (st : SessState) :
    (fillService sv m st).in_booking = st.in_booking := by
  unfold fillService
  split
  · rfl
  · cases findService sv m <;> rfl

theorem fillDate_service (n : NowT) (m : String) (st : SessState) :
    (fillDate n m st).service = st.service := by
  unfold fillDate
  split
  · rfl
  · cases parseDateFromText n m <;> rfl

theorem fillDate_time (n : NowT) (m : String) (st : SessState) :
    (fillDate n m st).time = st.time := by
  unfold fillDate
  split
  · rfl
  · cases parseDateFromText n m <;> rfl

theorem fillDate_in_booking (n : NowT) (m : String) (st : SessState) :
    (fillDate n m st).in_booking = st.in_booking := by
  unfold fillDate
  split
  · rfl
  · cases parseDateFromText n m <;> rfl

theorem fillTime_service (m : String) (st : SessState) :
    (fillTime m st).service = st.service := by
  unfold fillTime
  split
  · rfl
  · cases parseTimeFromText m <;> rfl

theorem fillTime_date (m : String) (st : SessState) :
    (fillTime m st).date = st.date := by
  unfold fillTime
  split
  · rfl
  · cases parseTimeFromText m <;> rfl

theorem fillTime_in_booking (m : String) (st : SessState) :
    (fillTime m st).in_booking = st.in_booking := by
  unfold fillTime
  split
  · rfl
  · cases parseTimeFromText m <;> rfl

theorem chatStep_sessionAfter_cases (entry : Option SessState) (msg : String) (env : ChatEnv) :
    (chatStep entry msg env).sessionAfter = none ∨
    (chatStep entry msg env).sessionAfter = some (postState entry msg env) := by
  simp only [chatStep, postState]
  repeat' split <;> try simp

theorem setBooking_eq_self (st : SessState) (h : st.in_booking = true) :
    { st with in_booking := true } = st := by
  cases st
  simp_all

theorem bookFlagStep_service (i : String) (st : SessState) :
    (bookFlagStep i st).service = st.service := by
  unfold bookFlagStep
  split <;> rfl

theorem bookFlagStep_date (i : String) (st : SessState) :
    (bookFlagStep i st).date = st.date := by
  unfold bookFlagStep
  split <;> rfl

theorem bookFlagStep_time (i : String) (st : SessState) :
    (bookFlagStep i st).time = st.time := by
  unfold bookFlagStep
  split <;> rfl

theorem bookFlagStep_of_in_booking (i : String) (st : SessState) (h : st.in_booking = true) :
    bookFlagStep i st = st := by
  unfold bookFlagStep
  rw [h]
  simp [setBooking_eq_self st h]

theorem bookFlagStep_in_booking_mono (i : String) (st : SessState) (h : st.in_booking = true) :
    (bookFlagStep i st).in_booking = true := by
  rw [bookFlagStep_of_in_booking i st h]
  exact h

theorem mergeFills_service (sv : List Service) (n : NowT) (m : String) (st : SessState)
    (h : truthyS st.service = true) : (mergeFills sv n m st).service = st.service := by
  unfold mergeFills
  rw [fillTime_service, fillDate_service, fillService_of_truthy sv m st h]

theorem mergeFills_date (sv : List Service) (n : NowT) (m : String) (st : SessState)
    (h : truthyS st.date = true) : (mergeFills sv n m st).date = st.date := by
  unfold mergeFills
  rw [fillTime_date]
  have hd : truthyS (fillService sv m st).date = true := by
    rw [fillService_date]; exact h
  rw [fillDate_of_truthy n m _ hd, fillService_date]

theorem mergeFills_time (sv : List Service) (n : NowT) (m : String) (st : SessState)
    (h : truthyS st.time = true) : (mergeFills sv n m st).time = st.time := by
  unfold mergeFills
  have ht : truthyS (fillDate n m (fillService sv m st)).time = true := by
    rw [fillDate_time, fillService_time]; exact h
  rw [fillTime_of_truthy m _ ht, fillDate_time, fillService_time]

theorem mergeFills_in_booking (sv : List Service) (n : NowT) (m : String) (st : SessState) :
    (mergeFills sv n m st).in_booking = st.in_booking := by
  unfold mergeFills
  rw [fillTime_in_booking, fillDate_in_booking, fillService_in_booking]

theorem mergeFills_of_truthy_all (sv : List Service) (n : NowT) (m : String) (st : SessState)
    (hs : truthyS st.service = true) (hd : truthyS st.date = true)
    (ht : truthyS st.time = true) : mergeFills sv n m st = st := by
  unfold mergeFills
  rw [fillService_of_truthy sv m st hs, fillDate_of_truthy n m st hd,
    fillTime_of_truthy m st ht]

theorem postState_service (st : SessState) (msg : String) (env : ChatEnv)
    (h : truthyS st.service = true) : (postState (some st) msg env).service = st.service := by
  unfold postState
  simp only [Option.getD_some]
  split
  · exact bookFlagStep_service env.intent st
  · rw [mergeFills_service]
    · exact bookFlagStep_service env.intent st
    · rw [bookFlagStep_service]; exact h

theorem postState_date (st : SessState) (msg : String) (env : ChatEnv)
    (h : truthyS st.date = true) : (postState (some st) msg env).date = st.date := by
  unfold postState
  simp only [Option.getD_some]
  split
  · exact bookFlagStep_date env.intent st
  · rw [mergeFills_date]
    · exact bookFlagStep_date env.intent st
    · rw [bookFlagStep_date]; exact h

theorem postState_time (st : SessState) (msg : String) (env : ChatEnv)
    (h : truthyS st.time = true) : (postState (some st) msg env).time = st.time := by
  unfold postState
  simp only [Option.getD_some]
  split
  · exact bookFlagStep_time env.intent st
  · rw [mergeFills_time]
    · exact bookFlagStep_time env.intent st
    · rw [bookFlagStep_time]; exact h

theorem postState_in_booking (st : SessState) (msg : String) (env : ChatEnv)
    (h : st.in_booking = true) : (postState (some st) msg env).in_booking = true := by
  unfold postState
  simp only [Option.getD_some]
  split
  · exact bookFlagStep_in_booking_mono env.intent st h
  · rw [mergeFills_in_booking]
    exact bookFlagStep_in_booking_mono env.intent st h

theorem chatStep_consulted (entry : Option SessState) (msg : String) (env : ChatEnv) :
    (chatStep entry msg env).consultedClassifier = true := by
  simp only [chatStep]
  repeat' split
  all_goals rfl

theorem chatStep_idle (st : SessState) (msg : String) (env : ChatEnv)
    (hb : st.in_booking = false) (hi : env.intent ≠ "booking") :
    chatStep (some st) msg env =
      { status := 200,
        replyText := some (greetingMsg (businessNameOf (effectiveKBOf env.kbArg env.dbBiz))),
        sessionAfter := some st, consultedClassifier := true, emailAttempt := none } := by
  have hbeq : (env.intent == "booking") = false := beq_eq_false_iff_ne.mpr hi
  have hflag : bookFlagStep env.intent st = st := by
    unfold bookFlagStep
    rw [hbeq, hb]
    simp
  simp only [chatStep, Option.getD_some, hflag, hb]
  simp

/-! ### Claim theorems -/

/-- C1: once one of the slots `service`, `date`, `time` holds a non-empty
value, processing any subsequent `/chat` message never resets it while the
session record exists: whenever a step leaves a record in the store, every
slot that entered the step with a non-empty string still holds that string. -/
theorem claim_C1_fill_never_clear (st : SessState) (msg : String) (env : ChatEnv)
    (st' : SessState) (h : (chatStep (some st) msg env).sessionAfter = some st') :
    (∀ s, st.service = some s → s ≠ "" → st'.service = some s) ∧
    (∀ s, st.date = some s → s ≠ "" → st'.date = some s) ∧
    (∀ s, st.time = some s → s ≠ "" → st'.time = some s) := by
  rcases chatStep_sessionAfter_cases (some st) msg env with hc | hc
  · rw [hc] at h
    cases h
  · rw [hc] at h
    injection h with h'
    subst h'
    refine ⟨?_, ?_, ?_⟩ <;> intro s hs hne
    · have ht : truthyS st.service = true := by
        rw [hs]
        simp [truthyS, hne]
      rw [postState_service st msg env ht, hs]
    · have ht : truthyS st.date = true := by
        rw [hs]
        simp [truthyS, hne]
      rw [postState_date st msg env ht, hs]
    · have ht : truthyS st.time = true := by
        rw [hs]
        simp [truthyS, hne]
      rw [postState_time st msg env ht, hs]

/-- C1 witness: a filled service and date survive a step that extracts
nothing from the message. -/
theorem claim_C1_witness :
    (chatStep (some stPart) "bonjour" envPlain).sessionAfter = some stPart ∧
    ((∀ s, stPart.service = some s → s ≠ "" → stPart.service = some s) ∧
     (∀ s, stPart.date = some s → s ≠ "" → stPart.date = some s) ∧
     (∀ s, stPart.time = some s → s ≠ "" → stPart.time = some s)) :=
  ⟨by decide, claim_C1_fill_never_clear stPart "bonjour" envPlain stPart (by decide)⟩

/-- C7: `in_booking` is monotonic — any step that leaves the session record
in the store maps a true flag to true; the flag only disappears with the
record itself. -/
theorem claim_C7_in_booking_monotonic (st : SessState) (msg : String) (env : ChatEnv)
    (st' : SessState) (hb : st.in_booking = true)
    (h : (chatStep (some st) msg env).sessionAfter = some st') :
    st'.in_booking = true := by
  rcases chatStep_sessionAfter_cases (some st) msg env with hc | hc
  · rw [hc] at h
    cases h
  · rw [hc] at h
    injection h with h'
    subst h'
    exact postState_in_booking st msg env hb

/-- C7 witness: the flag stays true across a step that keeps the record. -/
theorem claim_C7_witness :
    stPart.in_booking = true ∧
    (chatStep (some stPart) "bonjour" envPlain).sessionAfter = some stPart ∧
    stPart.in_booking = true :=
  ⟨by decide, by decide,
    claim_C7_in_booking_monotonic stPart "bonjour" envPlain stPart (by decide) (by decide)⟩

/-- C9: a message on a session that is not in booking mode, classified with a
non-booking intent, yields exactly the generic greeting and leaves the
session record unchanged — no slot and no flag moves. -/
theorem claim_C9_idle_noop (st : SessState) (msg : String) (env : ChatEnv)
    (hb : st.in_booking = false) (hi : env.intent ≠ "booking") :
    chatStep (some st) msg env =
      { status := 200,
        replyText := some (greetingMsg (businessNameOf (effectiveKBOf env.kbArg env.dbBiz))),
        sessionAfter := some st, consultedClassifier := true, emailAttempt := none } := by
  have hbeq : (env.intent == "booking") = false := beq_eq_false_iff_ne.mpr hi
  have hflag : bookFlagStep env.intent st = st := by
    unfold bookFlagStep
    rw [hbeq, hb]
    simp
  simp only [chatStep, Option.getD_some, hflag, hb]
  simp

/-- C9 witness: the idle branch at a concrete fresh session. -/
theorem claim_C9_witness :
    initialState.in_booking = false ∧ envPlain.intent ≠ "booking" ∧
    chatStep (some initialState) "bonjour" envPlain =
      { status := 200,
        replyText := some (greetingMsg (businessNameOf (effectiveKBOf envPlain.kbArg envPlain.dbBiz))),
        sessionAfter := some initialState, consultedClassifier := true, emailAttempt := none } :=
  ⟨by decide, by decide, claim_C9_idle_noop initialState "bonjour" envPlain (by decide) (by decide)⟩

/-- C2: with all three slots set and a confirming message, the session record
is deleted exactly when the dispatch succeeds or no contact address is
available; on dispatch failure the request answers 500 and the record is left
exactly as it was, so re-running the same confirmation with a working
dispatcher completes the booking without re-collecting anything. -/
theorem claim_C2_confirmation_dispatch (st : SessState) (msg : String) (env : ChatEnv)
    (hb : st.in_booking = true) (hsv : truthyS st.service = true)
    (hd : truthyS st.date = true) (ht : truthyS st.time = true)
    (hc : isConfirmation msg = true) :
    ((chatStep (some st) msg env).sessionAfter = none ↔
      (env.emailOk = true ∨ businessEmailOf (effectiveKBOf env.kbArg env.dbBiz) env.dbBiz = none)) ∧
    (∀ e, businessEmailOf (effectiveKBOf env.kbArg env.dbBiz) env.dbBiz = some e →
      env.emailOk = false →
      (chatStep (some st) msg env).status = 500 ∧
      (chatStep (some st) msg env).sessionAfter = some st ∧
      (chatStep (some st) msg { env with emailOk := true }).sessionAfter = none ∧
      (chatStep (some st) msg { env with emailOk := true }).replyText = some thanksMsg) := by
  have hflag : bookFlagStep env.intent st = st := bookFlagStep_of_in_booking env.intent st hb
  have hmf : mergeFills (servicesOf (effectiveKBOf env.kbArg env.dbBiz)) env.now msg st = st :=
    mergeFills_of_truthy_all _ _ _ _ hsv hd ht
  simp only [chatStep, Option.getD_some]
  simp only [hflag, hmf, hb, hsv, hd, ht, hc]
  cases hbe : businessEmailOf (effectiveKBOf env.kbArg env.dbBiz) env.dbBiz with
  | none => simp [hbe]
  | some e =>
    cases heo : env.emailOk with
    | true => simp [hbe, heo]
    | false => simp [hbe, heo]

/-- C2 witness: concrete failing dispatch preserves the filled session and a
retry with a working dispatcher completes. -/
theorem claim_C2_witness :
    stFull.in_booking = true ∧ isConfirmation "oui" = true ∧
    (((chatStep (some stFull) "oui" envFail).sessionAfter = none ↔
      (envFail.emailOk = true ∨
        businessEmailOf (effectiveKBOf envFail.kbArg envFail.dbBiz) envFail.dbBiz = none)) ∧
    (∀ e, businessEmailOf (effectiveKBOf envFail.kbArg envFail.dbBiz) envFail.dbBiz = some e →
      envFail.emailOk = false →
      (chatStep (some stFull) "oui" envFail).status = 500 ∧
      (chatStep (some stFull) "oui" envFail).sessionAfter = some stFull ∧
      (chatStep (some stFull) "oui" { envFail with emailOk := true }).sessionAfter = none ∧
      (chatStep (some stFull) "oui" { envFail with emailOk := true }).replyText = some thanksMsg)) :=
  ⟨by decide, by decide,
    claim_C2_confirmation_dispatch stFull "oui" envFail (by decide) (by decide) (by decide)
      (by decide) (by decide)⟩

/-- C3 counterexample: the claim says the classifier is not consulted when the
session is already in booking mode; but server.js:389 awaits `analyzeIntent`
unconditionally, so a request on a session whose record has `in_booking = true`
still consults it. -/
theorem claim_C3_counterexample :
    (storeBooked "s1").map SessState.in_booking = some true ∧
    (chatHandler storeBooked ⟨some "b", some "s1", some "bonjour", none⟩ none "other" true
      nowJan).consultedClassifier = true := by
  constructor
  · decide
  · decide

/-- C3 amended: the classifier is consulted on every validated request, even
in booking mode; however, for a session with `in_booking = true` its outcome
is irrelevant — the whole observable step (reply, slot-state, status,
dispatch) is identical for every possible classifier outcome. -/
theorem claim_C3_classifier_noninterference (st : SessState) (msg : String)
    (kbArg : Option KB) (dbBiz : Option DbBusiness) (i1 i2 : String) (emailOk : Bool)
    (now : NowT) (hb : st.in_booking = true) :
    chatStep (some st) msg ⟨kbArg, dbBiz, i1, emailOk, now⟩ =
      chatStep (some st) msg ⟨kbArg, dbBiz, i2, emailOk, now⟩ ∧
    (chatStep (some st) msg ⟨kbArg, dbBiz, i1, emailOk, now⟩).consultedClassifier = true := by
  have h1 : bookFlagStep i1 st = st := bookFlagStep_of_in_booking i1 st hb
  have h2 : bookFlagStep i2 st = st := bookFlagStep_of_in_booking i2 st hb
  constructor
  · simp only [chatStep, Option.getD_some, h1, h2]
  · exact chatStep_consulted _ _ _

/-- C3 witness for the amended statement: at a concrete in-booking session the
step is insensitive to the classifier outcome. -/
theorem claim_C3_witness :
    stFull.in_booking = true ∧
    (chatStep (some stFull) "bonjour" ⟨none, none, "booking", true, nowJan⟩ =
      chatStep (some stFull) "bonjour" ⟨none, none, "other", true, nowJan⟩ ∧
    (chatStep (some stFull) "bonjour" ⟨none, none, "booking", true, nowJan⟩).consultedClassifier
      = true) :=
  ⟨by decide,
    claim_C3_classifier_noninterference stFull "bonjour" none none "booking" "other" true nowJan
      (by decide)⟩

/-- C4 counterexample: the claim says requests omitting `session_id` get a
generated key, so distinct customers get distinct records.  In the code the
key is the constant `"anon"`: two successive requests that omit `session_id`
both answer `session_id = "anon"`, and the second one — whose message on a
fresh session would yield the greeting — is instead answered from the booking
state the first customer created. -/
theorem claim_C4_counterexample :
    (chatHandler emptyStore reqBook none "booking" true nowJan).sessionId = some "anon" ∧
    (chatHandler (chatHandler emptyStore reqBook none "booking" true nowJan).store reqHello
      none "other" true nowJan).sessionId = some "anon" ∧
    (chatHandler (chatHandler emptyStore reqBook none "booking" true nowJan).store reqHello
      none "other" true nowJan).replyText = some "Quel service souhaitez-vous réserver ?" ∧
    (chatHandler emptyStore reqHello none "other" true nowJan).replyText =
      some (greetingMsg "ce business") := by
  refine ⟨?_, ?_, ?_, ?_⟩ <;> decide

/-- C4 amended: a request omitting `session_id` is keyed under the fixed
shared key `"anon"` (not a per-customer generated key); the
`session_id` field, when the request succeeds, is exactly that storage key,
and no other store key is touched. -/
theorem claim_C4_anon_key (store : Store) (req : ChatReq) (dbBiz : Option DbBusiness)
    (intent : String) (emailOk : Bool) (now : NowT) (hs : req.session_id = none)
    (hb : jsStrFalsy req.business_slug = false) (hm : jsStrFalsy req.message = false) :
    ((chatHandler store req dbBiz intent emailOk now).status = 200 →
      (chatHandler store req dbBiz intent emailOk now).sessionId = some "anon") ∧
    (∀ k, ¬(k = "anon") → (chatHandler store req dbBiz intent emailOk now).store k = store k) := by
  have hsid : sidOf req.session_id = "anon" := by rw [hs]; rfl
  simp only [chatHandler, hb, hm, Bool.or_self, Bool.false_eq_true, if_false, hsid]
  constructor
  · intro h200
    rw [h200]
    simp
  · intro k hk
    have hkb : (k == "anon") = false := beq_eq_false_iff_ne.mpr hk
    cases (chatStep (store "anon") (req.message.getD "")
        { kbArg := req.kb, dbBiz := dbBiz, intent := intent, emailOk := emailOk,
          now := now }).sessionAfter with
    | none => simp [storeDel, hkb]
    | some st2 => simp [storeSet, hkb]

/-- C4 witness for the amended statement at a concrete omitted-session
request. -/
theorem claim_C4_witness :
    reqHello.session_id = none ∧
    (((chatHandler emptyStore reqHello none "other" true nowJan).status = 200 →
      (chatHandler emptyStore reqHello none "other" true nowJan).sessionId = some "anon") ∧
    (∀ k, ¬(k = "anon") →
      (chatHandler emptyStore reqHello none "other" true nowJan).store k = emptyStore k)) :=
  ⟨rfl, claim_C4_anon_key emptyStore reqHello none "other" true nowJan rfl (by decide) (by decide)⟩

/-- C5: the effective knowledge base is the caller-supplied `kb` when present, else
the projected stored record; this revision has no built-in default records
(the default table is empty), and with nothing available the knowledge base
is absent and the reply falls back to the generic `"ce business"` text with a
normal 200 response. -/
theorem claim_C5_kb_resolution (k : KB) (b : DbBusiness) (slug : String) (st : SessState)
    (msg : String) (dbB : Option DbBusiness) (intent : String) (emailOk : Bool) (now : NowT)
    (hi : intent ≠ "booking") (hb : st.in_booking = false) :
    effectiveKBOf (some k) dbB = some k ∧
    effectiveKBOf none (some b) = some (projectDbKB b) ∧
    effectiveKBOf none none = builtinDefaultKB slug ∧
    businessNameOf (effectiveKBOf none none) = "ce business" ∧
    (chatStep (some st) msg ⟨none, none, intent, emailOk, now⟩).replyText =
      some (greetingMsg "ce business") ∧
    (chatStep (some st) msg ⟨none, none, intent, emailOk, now⟩).status = 200 := by
  refine ⟨rfl, rfl, rfl, rfl, ?_, ?_⟩
  · rw [chatStep_idle st msg ⟨none, none, intent, emailOk, now⟩ hb hi]
    rfl
  · rw [chatStep_idle st msg ⟨none, none, intent, emailOk, now⟩ hb hi]

/-- C5 witness: the resolution chain at concrete inputs. -/
theorem claim_C5_witness :
    ("other" : String) ≠ "booking" ∧ initialState.in_booking = false ∧
    (effectiveKBOf (some kbSalon) none = some kbSalon ∧
    effectiveKBOf none (some dbW) = some (projectDbKB dbW) ∧
    effectiveKBOf none none = builtinDefaultKB "unknown-slug" ∧
    businessNameOf (effectiveKBOf none none) = "ce business" ∧
    (chatStep (some initialState) "bonjour" ⟨none, none, "other", true, nowJan⟩).replyText =
      some (greetingMsg "ce business") ∧
    (chatStep (some initialState) "bonjour" ⟨none, none, "other", true, nowJan⟩).status = 200) :=
  ⟨by decide, by decide,
    claim_C5_kb_resolution kbSalon dbW "unknown-slug" initialState "bonjour" none "other" true
      nowJan (by decide) (by decide)⟩

/-- C6 counterexample: on 2025-06-15 at 10:00, the message `"15 juin"` names
a day that has not "already passed" in the current year, yet the
`candidate < now` comparison rolls it to 2026 (the spec-faithful rule keeps
2025); and `"x2025-03-01"` contains the literal date but the `\b`-anchored
pattern does not match after a word character, so the code returns null
rather than the contained date. -/
theorem claim_C6_counterexample :
    parseDateFromText nowJun "15 juin" = some "2026-06-15" ∧
    parseDateFromTextSpec nowJun "15 juin" = some "2025-06-15" ∧
    parseDateFromText nowJun "x2025-03-01" = none := by
  refine ⟨?_, ?_, ?_⟩ <;> decide

/-- C6 amended: the date extractor returns the leftmost word-bounded
`YYYY-MM-DD` match verbatim when one exists; otherwise the leftmost
`<day> <month-name>` match rendered in the current year, bumped to the next
year exactly when midnight of that day in the current year is strictly
before the current instant (so today's own date is bumped once past
midnight); and null when neither pattern matches. -/
theorem claim_C6_date_extraction (now : NowT) (text : String) :
    (∀ m, findIsoL text.data = some m → parseDateFromText now text = some (String.mk m)) ∧
    (findIsoL text.data = none → findDM (safeLower text).data = none →
      parseDateFromText now text = none) ∧
    (∀ ds mn mo, findIsoL text.data = none → findDM (safeLower text).data = some (ds, mn) →
      monthsTable mn = some mo →
      parseDateFromText now text =
        some (renderYMD
          (if candBeforeNow now mo (digitsToNat ds.data) then now.year + 1 else now.year)
          mo (digitsToNat ds.data))) := by
  by_cases h0 : text = ""
  · subst h0
    refine ⟨?_, ?_, ?_⟩
    · intro m hm
      rw [show findIsoL ("" : String).data = none from rfl] at hm
      cases hm
    · intro _ _
      rfl
    · intro ds mn mo hiso hdm hmt
      rw [show findDM (safeLower "").data = none from rfl] at hdm
      cases hdm
  · have hbeq : (text == "") = false := beq_eq_false_iff_ne.mpr h0
    refine ⟨?_, ?_, ?_⟩
    · intro m hm
      simp [parseDateFromText, hbeq, hm]
    · intro hh1 hh2
      simp [parseDateFromText, hbeq, hh1, hh2]
    · intro ds mn mo hiso hdm hmt
      simp [parseDateFromText, hbeq, hiso, hdm, hmt]

/-- C6 witness for the amended statement: the month branch at a concrete
passed date. -/
theorem claim_C6_witness :
    findIsoL ("3 mars" : String).data = none ∧
    findDM (safeLower "3 mars").data = some ("3", "mars") ∧
    parseDateFromText nowMid "3 mars" =
      some (renderYMD
        (if candBeforeNow nowMid 3 (digitsToNat ("3" : String).data) then nowMid.year + 1
          else nowMid.year)
        3 (digitsToNat ("3" : String).data)) :=
  ⟨by decide, by decide,
    (claim_C6_date_extraction nowMid "3 mars").2.2 "3" "mars" 3 (by decide) (by decide)
      (by decide)⟩

/-- C8: confirmation detection lowercases and trims the input and accepts
exactly when some fixed affirmative token equals or occurs inside the
normalized text; the samples Oui, OK! and c-apostrophe-est-bon, and even CONFIRMÉ,
(accented uppercase) confirm, `"non"` does not. -/
theorem claim_C8_confirmation :
    (∀ t : String, isConfirmation t = true ↔
      ∃ w ∈ yesWords,
        jsTrim (safeLower t) = w ∨ containsSub (jsTrim (safeLower t)) w = true) ∧
    isConfirmation "Oui" = true ∧
    isConfirmation "OK!" = true ∧
    isConfirmation ("c" ++ String.mk [apoC] ++ "est bon") = true ∧
    isConfirmation "CONFIRMÉ" = true ∧
    isConfirmation "non" = false := by
  refine ⟨?_, by decide, by decide, by decide, by decide, by decide⟩
  intro t
  simp [isConfirmation, List.any_eq_true]

/-- C10: a single message carrying a catalog service name, a parsable date, a
parsable time and a confirmation token, on a booking-mode (or
booking-classified) session with empty slots and with a contact address and a
working dispatcher, completes the whole booking in that one request: the
dispatch carries the three extracted slots, the reply is the thank-you text
and the session record is deleted. -/
theorem claim_C10_one_shot (entry : Option SessState) (b0 : Bool) (msg : String)
    (env : ChatEnv) (svc : Service) (d t e : String)
    (hst : entry.getD initialState = ⟨none, none, none, b0⟩)
    (hbk : env.intent = "booking" ∨ b0 = true)
    (hfs : findService (servicesOf (effectiveKBOf env.kbArg env.dbBiz)) msg = some svc)
    (hsn : ¬(svc.name = ""))
    (hpd : parseDateFromText env.now msg = some d) (hdn : ¬(d = ""))
    (hpt : parseTimeFromText msg = some t) (htn : ¬(t = ""))
    (hc : isConfirmation msg = true)
    (he : businessEmailOf (effectiveKBOf env.kbArg env.dbBiz) env.dbBiz = some e)
    (hek : env.emailOk = true) :
    chatStep entry msg env =
      { status := 200, replyText := some thanksMsg, sessionAfter := none,
        consultedClassifier := true,
        emailAttempt := some
          { toAddr := e, businessName := businessNameOf (effectiveKBOf env.kbArg env.dbBiz),
            booking := { service := svc.name, date := d, time := t } } } := by
  have hflag : bookFlagStep env.intent (entry.getD initialState) = ⟨none, none, none, true⟩ := by
    rw [hst]
    unfold bookFlagStep
    rcases hbk with hi | hbt
    · rw [hi]
      simp
    · subst hbt
      simp
  have hmf : mergeFills (servicesOf (effectiveKBOf env.kbArg env.dbBiz)) env.now msg
      ⟨none, none, none, true⟩ = ⟨some svc.name, some d, some t, true⟩ := by
    unfold mergeFills fillService fillDate fillTime
    simp [truthyS, hfs, hpd, hpt]
  have hb1 : (svc.name == "") = false := beq_eq_false_iff_ne.mpr hsn
  have hb2 : (d == "") = false := beq_eq_false_iff_ne.mpr hdn
  have hb3 : (t == "") = false := beq_eq_false_iff_ne.mpr htn
  simp only [chatStep, hflag, hmf]
  simp [truthyS, hb1, hb2, hb3, hc, he, hek]

/-- C10 witness: one concrete message fills everything and completes. -/
theorem claim_C10_witness :
    isConfirmation "oui coupe 2025-03-01 14h30" = true ∧
    chatStep none "oui coupe 2025-03-01 14h30" envBooking =
      { status := 200, replyText := some thanksMsg, sessionAfter := none,
        consultedClassifier := true,
        emailAttempt := some
          { toAddr := "salon@example.com",
            businessName := businessNameOf (effectiveKBOf envBooking.kbArg envBooking.dbBiz),
            booking := { service := svcW.name, date := "2025-03-01", time := "14:30" } } } :=
  ⟨by decide,
    claim_C10_one_shot none false "oui coupe 2025-03-01 14h30" envBooking svcW "2025-03-01"
      "14:30" "salon@example.com" (by decide) (Or.inl rfl) (by decide) (by decide) (by decide)
      (by decide) (by decide) (by decide) (by decide) (by decide) rfl⟩
